import Mathlib

/-!
# Verification of `binary_playground`

A shallow embedding of `src/binary_playground.c` and `src/binary_playground.h`.

Machine floating-point values are modelled by the type `Fp`: NaN, signed
infinities, and finite values represented as an integer mantissa times a power
of two (`fin m e` denotes the real number `m * 2 ^ e`).  IEEE-754 binary32 and
binary64 addition are modelled exactly: the mathematically exact sum is rounded
to the target precision with round-to-nearest, ties-to-even, with gradual
underflow (exponents clamped at the minimum) and overflow to infinity.  The
model collapses the sign of zero (IEEE `-0.0` and `+0.0` are both `fin 0 0`)
and the sign of NaN; no behavior examined here depends on either.

The CLI (`main` in the C file) is modelled as a pure function from the argument
list and a description of the dynamic-library environment to a `RunResult`
recording standard output, standard error, the exit code, and a trace of
events (library handle acquisition/release and invocations of the three
arithmetic operations).  `getopt_long` is modelled for the option forms the
program documents: each option name given as its own argument (`--mode`, `-m`,
…) followed by its value argument where one is required, `--` ending option
processing, and non-option arguments skipped (glibc permutes them to the end
and `main` ignores them).  Attached-argument forms (`--a=1`, `-a1`) and long
option abbreviations are outside the modelled fragment; no claim depends on
them.  `strtof` is modelled for decimal inputs (sign, digits, fraction,
exponent), returning 0 when no digits are found, exactly as the C library
function behaves on such inputs; `printf` `%f` formatting is modelled as
correct rounding of the exact value to six decimal places.
-/

/-- Floor of the base-2 logarithm, fuel-driven so that the kernel can
evaluate it.  `ilog2fuel fuel n` halves `n` until it drops below 2. -/
def ilog2fuel : ℕ → ℕ → ℕ
  | 0, _ => 0
  | fuel + 1, n => if n ≥ 2 then ilog2fuel fuel (n / 2) + 1 else 0

/-- `ilog2 n` is `⌊log₂ n⌋` for `n ≥ 1` (and 0 for `n = 0`). -/
def ilog2 (n : ℕ) : ℕ := ilog2fuel n n

/-- Round `a / b` (for `b > 0`) to the nearest integer, ties to even.
Uses Euclidean division, so it is correct for negative `a` as well. -/
def rdivRNE (a b : ℤ) : ℤ :=
  let q := a / b
  let r := a % b
  if 2 * r < b then q
  else if b < 2 * r then q + 1
  else if q % 2 = 0 then q else q + 1

/-- `⌊log₂ (n / d)⌋` for positive naturals `n`, `d`. -/
def floorLog2Rat (n d : ℕ) : ℤ :=
  let bn := ilog2 n
  let bd := ilog2 d
  if bn ≥ bd then
    if n ≥ d * 2 ^ (bn - bd) then (bn : ℤ) - bd else (bn : ℤ) - bd - 1
  else
    if n * 2 ^ (bd - bn) ≥ d then (bn : ℤ) - bd else (bn : ℤ) - bd - 1

/-- A machine floating-point datum: NaN, a signed infinity, or a finite value
`m * 2 ^ e`.  Both C `float` and C `double` values live in this type; the
precision is a parameter of the operations, not of the data. -/
inductive Fp where
  | nan
  | inf (neg : Bool)
  | fin (m : ℤ) (e : ℤ)
deriving DecidableEq, Repr

/-- Round the exact rational `num / den` (`den > 0`) to a floating-point
format with `prec + 1` significand bits, minimum exponent `emin` and maximum
exponent `emax`, using round-to-nearest, ties-to-even; overflow produces an
infinity and underflow is gradual (subnormals are exact multiples of
`2 ^ (emin - prec)`). -/
def roundRat (prec : ℕ) (emin emax : ℤ) (num den : ℤ) : Fp :=
  if num = 0 then .fin 0 0
  else
    let E := max (floorLog2Rat num.natAbs den.natAbs) emin
    let t := E - prec
    let m := if t ≥ 0 then rdivRNE num (den * 2 ^ t.toNat)
             else rdivRNE (num * 2 ^ (-t).toNat) den
    if m = 0 then .fin 0 0
    else if (ilog2 m.natAbs : ℤ) + t > emax then .inf (m < 0)
    else .fin m t

/-- The binary32 value of the exact rational `num / den`: the value of a C
`float` literal, and of `strtof` on an in-range decimal string. -/
def lit32 (num den : ℤ) : Fp := roundRat 23 (-126) 127 num den

/-- The binary64 value of the exact rational `num / den`: the value of a C
`double` literal. -/
def lit64 (num den : ℤ) : Fp := roundRat 52 (-1022) 1023 num den

/-- IEEE-754 addition at precision `prec + 1` bits with exponent range
`[emin, emax]`: NaN and infinity propagation per the standard, and correctly
rounded (round-to-nearest, ties-to-even) addition of finite values. -/
def fpAdd (prec : ℕ) (emin emax : ℤ) : Fp → Fp → Fp
  | .nan, _ => .nan
  | _, .nan => .nan
  | .inf s, .inf t => if s = t then .inf s else .nan
  | .inf s, .fin _ _ => .inf s
  | .fin _ _, .inf s => .inf s
  | .fin m1 e1, .fin m2 e2 =>
    let e := min e1 e2
    let ms := m1 * 2 ^ (e1 - e).toNat + m2 * 2 ^ (e2 - e).toNat
    if e ≥ 0 then roundRat prec emin emax (ms * 2 ^ e.toNat) 1
    else roundRat prec emin emax ms (2 ^ (-e).toNat)

/-- IEEE-754 binary32 (C `float`) addition. -/
def fadd32 : Fp → Fp → Fp := fpAdd 23 (-126) 127

/-- IEEE-754 binary64 (C `double`) addition. -/
def fadd64 : Fp → Fp → Fp := fpAdd 52 (-1022) 1023

/-- `sum_scalars` from `binary_playground.c:50-52`: `return a + b + c;` on
C `float`s, which associates left-to-right, so two binary32 additions. -/
def sum_scalars (a b c : Fp) : Fp := fadd32 (fadd32 a b) c

/-- The three caller-owned buffers passed to `sum_vectors`: `v1` is written
through, `v2` and `v3` are `const`. -/
structure VecMem where
  v1 : List Fp
  v2 : List Fp
  v3 : List Fp
deriving DecidableEq, Repr

/-- Out-of-bounds reads are undefined behavior in the C source; the embedding
totalizes them with this default so that the bounds hypotheses of the theorems
carry the real content. -/
def z0 : Fp := .fin 0 0

/-- `sum_vectors` from `binary_playground.c:61-65`: for each `i` in
`[0, len)`, in increasing order, `v1[i] = v1[i] + v2[i] + v3[i]` (two
binary32 additions, left-to-right); only `v1` is stored to. -/
def sum_vectors (mem : VecMem) (len : ℕ) : VecMem :=
  (List.range len).foldl
    (fun acc i =>
      { acc with
        v1 := acc.v1.set i
          (fadd32 (fadd32 (acc.v1.getD i z0) (acc.v2.getD i z0))
            (acc.v3.getD i z0)) })
    mem

/-- `MyStruct` from `binary_playground.h:6-10`: a C `int`, a C `float`, and a
C `double` field. -/
structure MyStruct where
  x : ℤ
  y : Fp
  z : Fp
deriving DecidableEq, Repr

/-- Two's-complement wrap-around of a 32-bit signed integer, the behavior of
`int` addition on the program's targets. -/
def wrap32 (n : ℤ) : ℤ := (n + 2147483648) % 4294967296 - 2147483648

/-- `sum_structs` from `binary_playground.c:73-79`: field-wise sums into a
fresh `MyStruct`; the inputs are taken by `const` pointer and never written. -/
def sum_structs (s1 s2 : MyStruct) : MyStruct :=
  { x := wrap32 (s1.x + s2.x), y := fadd32 s1.y s2.y, z := fadd64 s1.z s2.z }

/-- Decimal digit accumulation for the `strtof` model. -/
def decDigits (cs : List Char) : ℕ :=
  cs.foldl (fun a c => a * 10 + (c.toNat - 48)) 0

/-- A model of C `strtof` on decimal inputs: optional leading whitespace, an
optional sign, digits with an optional fraction part, and an optional
`e`/`E` exponent; returns 0.0 when no digits are found, and the correctly
rounded binary32 value (overflowing to infinity, as `strtof` returns
`HUGE_VALF`) otherwise.  Hexadecimal, `inf` and `nan` spellings are outside
the modelled fragment; no claim uses them. -/
def strtof (s : String) : Fp :=
  let cs := s.toList.dropWhile (fun c => c = ' ' ∨ c = '\t' ∨ c = '\n')
  let sgnNeg : Bool := match cs with
    | '-' :: _ => true
    | _ => false
  let cs1 := match cs with
    | '-' :: r => r
    | '+' :: r => r
    | _ => cs
  let ds1 := cs1.takeWhile Char.isDigit
  let r1 := cs1.dropWhile Char.isDigit
  let ds2 := match r1 with
    | '.' :: r => r.takeWhile Char.isDigit
    | _ => []
  let r2 := match r1 with
    | '.' :: r => r.dropWhile Char.isDigit
    | _ => r1
  if ds1.isEmpty && ds2.isEmpty then .fin 0 0
  else
    let mant : ℤ := (decDigits (ds1 ++ ds2) : ℤ)
    let sgn : ℤ := if sgnNeg then -1 else 1
    let expTail := match r2 with
      | 'e' :: r => some r
      | 'E' :: r => some r
      | _ => none
    let expVal : ℤ := match expTail with
      | some ('-' :: r) =>
        if (r.takeWhile Char.isDigit).isEmpty then 0
        else -(decDigits (r.takeWhile Char.isDigit) : ℤ)
      | some ('+' :: r) =>
        if (r.takeWhile Char.isDigit).isEmpty then 0
        else (decDigits (r.takeWhile Char.isDigit) : ℤ)
      | some r =>
        if (r.takeWhile Char.isDigit).isEmpty then 0
        else (decDigits (r.takeWhile Char.isDigit) : ℤ)
      | none => 0
    let exp10 : ℤ := expVal - ds2.length
    if exp10 ≥ 0 then lit32 (sgn * mant * 10 ^ exp10.toNat) 1
    else lit32 (sgn * mant) (10 ^ (-exp10).toNat)

/-- Left-pad with zeros to six digits, for `%f`'s fractional part. -/
def pad6 (s : String) : String :=
  String.mk (List.replicate (6 - s.length) '0') ++ s

/-- A model of `printf` `%f` on the (exactly represented) argument value:
six fractional digits, correctly rounded. -/
def fmt6 : Fp → String
  | .nan => "nan"
  | .inf b => if b then "-inf" else "inf"
  | .fin m e =>
    let sgn := if m < 0 then "-" else ""
    let am : ℤ := (m.natAbs : ℤ)
    let n6 : ℤ :=
      if e ≥ 0 then am * 2 ^ e.toNat * 1000000
      else rdivRNE (am * 1000000) (2 ^ (-e).toNat)
    sgn ++ toString (n6.toNat / 1000000) ++ "." ++ pad6 (toString (n6.toNat % 1000000))

/-- `print_usage` from `binary_playground.c:86-88`. -/
def print_usage (prog : String) : String :=
  "Usage: " ++ prog ++
    " [--mode scalar|vector|struct] [--use-lib] [--a <float> --b <float> --c <float>]\n"

/-- The configuration accumulated by the `getopt_long` loop in `main`
(`binary_playground.c:90-119`). -/
structure Config where
  mode : String
  useLib : Bool
  a : Fp
  b : Fp
  c : Fp
deriving DecidableEq, Repr

/-- The defaults set at the top of `main`: mode `scalar`, no library, and
scalar inputs `1.0f`, `2.0f`, `3.0f`. -/
def defaultConfig : Config :=
  { mode := "scalar", useLib := false, a := .fin 1 0, b := .fin 2 0, c := .fin 3 0 }

/-- Outcome of the option-parsing loop: a configuration reaching the dispatch
code, an immediate `--help` exit (usage on stdout, status 0), or an immediate
option error (usage, status 1). -/
inductive ParseResult where
  | ok (cfg : Config)
  | help
  | err
deriving DecidableEq, Repr

/-- Does this argument look like an option (starts with `-` and has at least
one more character)?  `getopt` treats a lone `-` as a non-option argument. -/
def isOptionLike (t : String) : Bool :=
  match t.toList with
  | '-' :: _ :: _ => true
  | _ => false

/-- The `getopt_long` loop of `main` (`binary_playground.c:109-119`), one
argument at a time, left to right: `--mode`/`-m`, `--a`, `--b`, `--c` each
consume the following argument (a missing argument is an option error),
`--use-lib`/`-u` and `--help`/`-h` are flags, `--` ends option processing,
any other option is an error, and non-option arguments are skipped.  Each
occurrence of an option overwrites the configuration field it names. -/
def parseLoop : Config → List String → ParseResult
  | cfg, [] => .ok cfg
  | cfg, t :: rest =>
    if t = "--mode" ∨ t = "-m" then
      match rest with
      | v :: rest' => parseLoop { cfg with mode := v } rest'
      | [] => .err
    else if t = "--use-lib" ∨ t = "-u" then parseLoop { cfg with useLib := true } rest
    else if t = "--a" ∨ t = "-a" then
      match rest with
      | v :: rest' => parseLoop { cfg with a := strtof v } rest'
      | [] => .err
    else if t = "--b" ∨ t = "-b" then
      match rest with
      | v :: rest' => parseLoop { cfg with b := strtof v } rest'
      | [] => .err
    else if t = "--c" ∨ t = "-c" then
      match rest with
      | v :: rest' => parseLoop { cfg with c := strtof v } rest'
      | [] => .err
    else if t = "--help" ∨ t = "-h" then .help
    else if t = "--" then .ok cfg
    else if isOptionLike t then .err
    else parseLoop cfg rest

/-- The dynamic-library environment `main` runs in: whether `dlopen` finds a
library (of either of the two names tried), the `dlerror` text on failure,
and which of the three symbols `dlsym` resolves, each with the function the
library provides for it. -/
structure LibEnv where
  opens : Bool
  dlerr : String
  symScalars : Option (Fp → Fp → Fp → Fp)
  symVectors : Option (List Fp → List Fp → List Fp → ℕ → List Fp)
  symStructs : Option (MyStruct → MyStruct → MyStruct)

/-- Observable events of a run: acquiring the library handle, releasing it
(`dlclose`), and the three arithmetic computations with their arguments. -/
inductive Event where
  | dlopenOk
  | dlclose
  | callScalars (a b c : Fp)
  | callVectors (v1 v2 v3 : List Fp) (len : ℕ)
  | callStructs (s1 s2 : MyStruct)
deriving DecidableEq, Repr

/-- Is this event one of the three arithmetic computations? -/
def eventIsCall : Event → Bool
  | .callScalars _ _ _ => true
  | .callVectors _ _ _ _ => true
  | .callStructs _ _ => true
  | _ => false

/-- Is this event a `dlclose`? -/
def isDlclose : Event → Bool
  | .dlclose => true
  | _ => false

/-- The observable outcome of one program invocation. -/
structure RunResult where
  out : String
  err : String
  exitCode : ℕ
  events : List Event
deriving DecidableEq, Repr

/-- The fixed example vector `v1` of vector mode (`binary_playground.c:160`). -/
def exampleV1 : List Fp := [.fin 1 0, .fin 2 0, .fin 3 0]

/-- The fixed example vector `v2` of vector mode (`binary_playground.c:161`). -/
def exampleV2 : List Fp := [.fin 1 (-1), .fin 1 (-1), .fin 1 (-1)]

/-- The fixed example vector `v3` of vector mode (`binary_playground.c:162`):
the `float` literals `0.1f`, `0.2f`, `0.3f`. -/
def exampleV3 : List Fp := [lit32 1 10, lit32 1 5, lit32 3 10]

/-- The fixed example struct `s1` of struct mode (`binary_playground.c:178`). -/
def exampleS1 : MyStruct := { x := 1, y := .fin 5 (-1), z := .fin 13 (-2) }

/-- The fixed example struct `s2` of struct mode (`binary_playground.c:179`). -/
def exampleS2 : MyStruct := { x := 4, y := .fin 3 (-1), z := .fin 3 (-2) }

/-- The vector-mode output loop (`binary_playground.c:170-174`): elements
in `%f` format, comma-separated while `i + 1 < len`, inside brackets. -/
def vecPrint (v : List Fp) (len : ℕ) : String :=
  ((List.range len).foldl
    (fun acc i => acc ++ fmt6 (v.getD i z0) ++ (if i + 1 < len then ", " else ""))
    "sum_vectors result: [") ++ "]\n"

/-- The part of `main` after option parsing (`binary_playground.c:121-198`):
optional `dlopen`/`dlsym` (failure to open is fatal with status 1; an
unresolved symbol silently falls back to the built-in function), dispatch on
the mode string, and `dlclose` of an acquired handle on both the normal and
the unknown-mode paths. -/
def dispatch (prog : String) (cfg : Config) (env : LibEnv) : RunResult :=
  if cfg.useLib && !env.opens then
    { out := "", err := "Failed to open dynamic library: " ++ env.dlerr ++ "\n",
      exitCode := 1, events := [] }
  else
    let evOpen : List Event := if cfg.useLib then [.dlopenOk] else []
    let evClose : List Event := if cfg.useLib then [.dlclose] else []
    let libS := if cfg.useLib then env.symScalars else none
    let libV := if cfg.useLib then env.symVectors else none
    let libT := if cfg.useLib then env.symStructs else none
    if cfg.mode = "scalar" then
      let res := match cfg.useLib, libS with
        | true, some f => f cfg.a cfg.b cfg.c
        | _, _ => sum_scalars cfg.a cfg.b cfg.c
      { out := "sum_scalars(" ++ fmt6 cfg.a ++ ", " ++ fmt6 cfg.b ++ ", " ++
          fmt6 cfg.c ++ ") = " ++ fmt6 res ++ "\n",
        err := "", exitCode := 0,
        events := evOpen ++ [.callScalars cfg.a cfg.b cfg.c] ++ evClose }
    else if cfg.mode = "vector" then
      let v1res := match cfg.useLib, libV with
        | true, some f => f exampleV1 exampleV2 exampleV3 3
        | _, _ => (sum_vectors ⟨exampleV1, exampleV2, exampleV3⟩ 3).v1
      { out := vecPrint v1res 3, err := "", exitCode := 0,
        events := evOpen ++ [.callVectors exampleV1 exampleV2 exampleV3 3] ++ evClose }
    else if cfg.mode = "struct" then
      let sres := match cfg.useLib, libT with
        | true, some f => f exampleS1 exampleS2
        | _, _ => sum_structs exampleS1 exampleS2
      { out := "sum_structs: x=" ++ toString sres.x ++ ", y=" ++ fmt6 sres.y ++
          ", z=" ++ fmt6 sres.z ++ "\n",
        err := "", exitCode := 0,
        events := evOpen ++ [.callStructs exampleS1 exampleS2] ++ evClose }
    else
      { out := print_usage prog, err := "Unknown mode '" ++ cfg.mode ++ "'\n",
        exitCode := 1, events := evOpen ++ evClose }

/-- `main` (`binary_playground.c:90-199`): parse the options left to right
starting from the defaults, then either exit during parsing (`--help` with
status 0, option error with status 1, usage printed in both cases, no library
touched) or run the dispatch code. -/
def mainC (prog : String) (args : List String) (env : LibEnv) : RunResult :=
  match parseLoop defaultConfig args with
  | .help => { out := print_usage prog, err := "", exitCode := 0, events := [] }
  | .err => { out := print_usage prog, err := "", exitCode := 1, events := [] }
  | .ok cfg => dispatch prog cfg env

/-- A trivial environment: no library present (irrelevant when `--use-lib` is
not passed). -/
def env0 : LibEnv :=
  { opens := false, dlerr := "", symScalars := none, symVectors := none, symStructs := none }

/-- The program name used for concrete invocations. -/
def progName : String := "./binary_playground"

/-- The option names whose occurrences overwrite a configuration field. -/
inductive OptName where
  | mode
  | a
  | b
  | c
deriving DecidableEq, Repr

/-- The command-line flag for each such option. -/
def optFlag : OptName → String
  | .mode => "--mode"
  | .a => "--a"
  | .b => "--b"
  | .c => "--c"

/-- The configuration-field update one occurrence of the option performs
(`binary_playground.c:111-115`). -/
def setOpt : OptName → String → Config → Config
  | .mode, v, cfg => { cfg with mode := v }
  | .a, v, cfg => { cfg with a := strtof v }
  | .b, v, cfg => { cfg with b := strtof v }
  | .c, v, cfg => { cfg with c := strtof v }

/-- Concrete memory used by the witnesses of the `sum_vectors` theorems. -/
def vecW : VecMem :=
  { v1 := [.fin 1 0, .fin 2 0, .fin 3 0],
    v2 := [.fin 1 (-1), .fin 1 (-1), .fin 1 (-1)],
    v3 := [lit32 1 10, lit32 1 5, lit32 3 10] }

/-- Concrete configuration used by the unknown-mode witness. -/
def cfgBogus : Config :=
  { mode := "bogus", useLib := false, a := .fin 1 0, b := .fin 2 0, c := .fin 3 0 }

/-- Configuration state after `--a 1`, used by the last-option-wins witness. -/
def cfgMid : Config := { defaultConfig with a := strtof "1" }

/-- One more loop iteration: the body at index `n` applied to the state after
`n` iterations. -/
theorem sum_vectors_succ (mem : VecMem) (n : ℕ) :
    sum_vectors mem (n + 1) =
      { sum_vectors mem n with
        v1 := (sum_vectors mem n).v1.set n
          (fadd32 (fadd32 ((sum_vectors mem n).v1.getD n z0)
              ((sum_vectors mem n).v2.getD n z0))
            ((sum_vectors mem n).v3.getD n z0)) } := by
  unfold sum_vectors
  rw [List.range_succ, List.foldl_append]
  rfl

/-- The loop never stores to `v2`. -/
theorem sum_vectors_v2 (mem : VecMem) (len : ℕ) :
    (sum_vectors mem len).v2 = mem.v2 := by
  induction len with
  | zero => rfl
  | succ n ih => rw [sum_vectors_succ]; exact ih

/-- The loop never stores to `v3`. -/
theorem sum_vectors_v3 (mem : VecMem) (len : ℕ) :
    (sum_vectors mem len).v3 = mem.v3 := by
  induction len with
  | zero => rfl
  | succ n ih => rw [sum_vectors_succ]; exact ih

/-- The loop only overwrites elements of `v1`, never changing its length. -/
theorem sum_vectors_length (mem : VecMem) (len : ℕ) :
    (sum_vectors mem len).v1.length = mem.v1.length := by
  induction len with
  | zero => rfl
  | succ n ih =>
    rw [sum_vectors_succ]
    simpa [List.length_set] using ih

/-- Setting index `i` leaves reads at `j ≠ i` unchanged. -/
theorem getD_set_ne (l : List Fp) (i j : ℕ) (x : Fp) (h : i ≠ j) :
    (l.set i x).getD j z0 = l.getD j z0 := by
  simp [List.getD_eq_getD_get?, List.get?_eq_getElem?, List.getElem?_set_ne h]

/-- Setting an in-bounds index `i` makes the read at `i` return the value. -/
theorem getD_set_self (l : List Fp) (i : ℕ) (x : Fp) (h : i < l.length) :
    (l.set i x).getD i z0 = x := by
  simp [List.getD_eq_getD_get?, List.get?_eq_getElem?, List.getElem?_set_eq_of_lt x h]

/-- Elements of `v1` at or beyond `len` are untouched by the loop. -/
theorem sum_vectors_frame_v1 (mem : VecMem) (len j : ℕ) (h : len ≤ j) :
    (sum_vectors mem len).v1.getD j z0 = mem.v1.getD j z0 := by
  induction len with
  | zero => rfl
  | succ n ih =>
    rw [sum_vectors_succ]
    exact (getD_set_ne _ n j _ (by omega)).trans (ih (by omega))

/-- After the loop, element `i < len` of `v1` holds the element-wise sum of
the original three vectors at `i`. -/
theorem sum_vectors_get (mem : VecMem) (len i : ℕ) (hi : i < len)
    (hl : i < mem.v1.length) :
    (sum_vectors mem len).v1.getD i z0 =
      fadd32 (fadd32 (mem.v1.getD i z0) (mem.v2.getD i z0)) (mem.v3.getD i z0) := by
  induction len with
  | zero => exact absurd hi (by omega)
  | succ n ih =>
    rcases Nat.lt_or_ge i n with h | h
    · rw [sum_vectors_succ]
      exact (getD_set_ne _ n i _ (by omega)).trans (ih h)
    · have hin : i = n := by omega
      subst hin
      rw [sum_vectors_succ]
      have hlen : i < (sum_vectors mem i).v1.length := by
        rw [sum_vectors_length]; omega
      refine (getD_set_self _ i _ hlen).trans ?_
      rw [sum_vectors_frame_v1 mem i i (le_refl i), sum_vectors_v2, sum_vectors_v3]

/-- C3: for every length `len` and every three float sequences of at least
`len` elements, `sum_vectors` sets `v1[i]` to `v1[i] + v2[i] + v3[i]` (two
left-to-right binary32 additions) for each `i` in `[0, len)`, and for
`len = 0` it is a no-op, leaving the memory entirely unchanged. -/
theorem sum_vectors_elementwise (mem : VecMem) (len i : ℕ)
    (h1 : len ≤ mem.v1.length) (h2 : len ≤ mem.v2.length) (h3 : len ≤ mem.v3.length)
    (hi : i < len) :
    (sum_vectors mem len).v1.getD i z0 =
      fadd32 (fadd32 (mem.v1.getD i z0) (mem.v2.getD i z0)) (mem.v3.getD i z0)
    ∧ sum_vectors mem 0 = mem :=
  ⟨sum_vectors_get mem len i hi (by omega), rfl⟩

/-- Witness for C3 at a concrete memory, `len = 2`, `i = 1`. -/
theorem sum_vectors_elementwise_witness :
    (2 ≤ vecW.v1.length ∧ 2 ≤ vecW.v2.length ∧ 2 ≤ vecW.v3.length ∧ 1 < 2) ∧
      ((sum_vectors vecW 2).v1.getD 1 z0 =
        fadd32 (fadd32 (vecW.v1.getD 1 z0) (vecW.v2.getD 1 z0)) (vecW.v3.getD 1 z0)
      ∧ sum_vectors vecW 0 = vecW) :=
  ⟨by decide,
    sum_vectors_elementwise vecW 2 1 (by decide) (by decide) (by decide) (by decide)⟩

/-- C4: `sum_vectors` writes only into `v1`: `v2` and `v3` are unchanged,
and `v1` keeps its length and its elements at every index outside
`[0, len)`. -/
theorem sum_vectors_frame_effect (mem : VecMem) (len j : ℕ)
    (h1 : len ≤ mem.v1.length) (h2 : len ≤ mem.v2.length) (h3 : len ≤ mem.v3.length)
    (hj : len ≤ j) :
    (sum_vectors mem len).v2 = mem.v2
    ∧ (sum_vectors mem len).v3 = mem.v3
    ∧ (sum_vectors mem len).v1.length = mem.v1.length
    ∧ (sum_vectors mem len).v1.getD j z0 = mem.v1.getD j z0 :=
  ⟨sum_vectors_v2 mem len, sum_vectors_v3 mem len, sum_vectors_length mem len,
    sum_vectors_frame_v1 mem len j hj⟩

/-- Witness for C4 at a concrete memory, `len = 2`, `j = 2`. -/
theorem sum_vectors_frame_effect_witness :
    (2 ≤ vecW.v1.length ∧ 2 ≤ vecW.v2.length ∧ 2 ≤ vecW.v3.length ∧ 2 ≤ 2) ∧
      ((sum_vectors vecW 2).v2 = vecW.v2
      ∧ (sum_vectors vecW 2).v3 = vecW.v3
      ∧ (sum_vectors vecW 2).v1.length = vecW.v1.length
      ∧ (sum_vectors vecW 2).v1.getD 2 z0 = vecW.v1.getD 2 z0) :=
  ⟨by decide,
    sum_vectors_frame_effect vecW 2 2 (by decide) (by decide) (by decide) (by decide)⟩

/-- C2: for every three binary32 inputs, finite or not (NaN and infinities
included — `Fp` covers them all and `fadd32` is total, so there is no error
condition), `sum_scalars` returns exactly the IEEE-754 single-precision sum
evaluated left-to-right, `(a + b) + c`. -/
theorem sum_scalars_ieee (a b c : Fp) : sum_scalars a b c = fadd32 (fadd32 a b) c :=
  rfl

/-- C5: `sum_structs` returns a new record whose `x` field is the wrapping
two's-complement 32-bit sum (congruent to `s1.x + s2.x` modulo `2^32` and in
`[-2^31, 2^31)`), whose `y` field is the IEEE-754 binary32 sum, and whose
`z` field is the IEEE-754 binary64 sum; the inputs are taken immutably and a
fresh record is produced. -/
theorem sum_structs_fieldwise (s1 s2 : MyStruct) :
    (sum_structs s1 s2).x ≡ s1.x + s2.x [ZMOD (2 ^ 32)]
    ∧ -(2 ^ 31) ≤ (sum_structs s1 s2).x ∧ (sum_structs s1 s2).x < 2 ^ 31
    ∧ (sum_structs s1 s2).y = fadd32 s1.y s2.y
    ∧ (sum_structs s1 s2).z = fadd64 s1.z s2.z := by
  refine ⟨?_, ?_, ?_, rfl, rfl⟩
  · show wrap32 (s1.x + s2.x) % (2 ^ 32) = (s1.x + s2.x) % (2 ^ 32)
    unfold wrap32
    omega
  · show -(2 ^ 31) ≤ wrap32 (s1.x + s2.x)
    unfold wrap32
    omega
  · show wrap32 (s1.x + s2.x) < 2 ^ 31
    unfold wrap32
    omega

/-- C1 as frozen is false: with `--mode vector` and no `--use-lib`, the
program does not print `sum_vectors result: [1.600000, 2.700000, 3.400000]`
(the third element is `3.0f + 0.5f + 0.3f`, which prints as `3.800000`). -/
theorem vector_mode_output_counterexample :
    (mainC progName ["--mode", "vector"] env0).out ≠
      "sum_vectors result: [1.600000, 2.700000, 3.400000]\n" := by
  decide

/-- C1 amended: invoked in vector mode with default options, the program
applies `sum_vectors` to the three fixed built-in vectors `[1,2,3]`,
`[0.5,0.5,0.5]`, `[0.1,0.2,0.3]` and prints
`sum_vectors result: [1.600000, 2.700000, 3.800000]`, exiting with status
0 (for any program name and any library environment, since the library is
not requested). -/
theorem vector_mode_output_amended (prog : String) (env : LibEnv) :
    mainC prog ["--mode", "vector"] env =
      { out := "sum_vectors result: [1.600000, 2.700000, 3.800000]\n",
        err := "", exitCode := 0,
        events := [.callVectors exampleV1 exampleV2 exampleV3 3] } :=
  rfl

/-- C6 as frozen is false: `--mode scalar --a 1.2 --b 3.4 --c 5.6` does not
print `sum_scalars(1.200000, 3.400000, 5.600000) = 10.200000`: the two
binary32 additions each round an exact tie upward (ties-to-even), giving
`10.20000076293945…`, which `%f` prints as `10.200001`. -/
theorem scalar_example_output_counterexample :
    (mainC progName ["--mode", "scalar", "--a", "1.2", "--b", "3.4", "--c", "5.6"] env0).out ≠
      "sum_scalars(1.200000, 3.400000, 5.600000) = 10.200000\n" := by
  decide

/-- C6 amended: invoked as `--mode scalar --a 1.2 --b 3.4 --c 5.6` without
`--use-lib`, the program prints exactly
`sum_scalars(1.200000, 3.400000, 5.600000) = 10.200001` and exits with
status 0. -/
theorem scalar_example_output_amended (prog : String) (env : LibEnv) :
    (mainC prog ["--mode", "scalar", "--a", "1.2", "--b", "3.4", "--c", "5.6"] env).out =
      "sum_scalars(1.200000, 3.400000, 5.600000) = 10.200001\n"
    ∧ (mainC prog ["--mode", "scalar", "--a", "1.2", "--b", "3.4", "--c", "5.6"] env).err = ""
    ∧ (mainC prog ["--mode", "scalar", "--a", "1.2", "--b", "3.4", "--c", "5.6"] env).exitCode = 0 :=
  ⟨rfl, rfl, rfl⟩

/-- C7: whenever the dispatch code runs with a mode that is none of
`scalar`, `vector`, `struct` (and the invocation did not already fail at
library load, which exits earlier without reaching the mode dispatch), the
program prints the unknown-mode error, prints the usage text, performs none
of the three computations, and exits with status 1. -/
theorem unknown_mode_behavior (prog : String) (cfg : Config) (env : LibEnv)
    (hs : cfg.mode ≠ "scalar") (hv : cfg.mode ≠ "vector") (ht : cfg.mode ≠ "struct")
    (hopen : cfg.useLib = true → env.opens = true) :
    (dispatch prog cfg env).err = "Unknown mode '" ++ cfg.mode ++ "'\n"
    ∧ (dispatch prog cfg env).out = print_usage prog
    ∧ (dispatch prog cfg env).exitCode = 1
    ∧ (dispatch prog cfg env).events.filter eventIsCall = [] := by
  have hcond : (cfg.useLib && !env.opens) = false := by
    cases h : cfg.useLib with
    | false => rfl
    | true => rw [hopen h]; rfl
  unfold dispatch
  rw [hcond, if_neg (by simp), if_neg hs, if_neg hv, if_neg ht]
  refine ⟨rfl, rfl, rfl, ?_⟩
  cases hu : cfg.useLib <;> simp [eventIsCall]

/-- Witness for C7 at mode `bogus` with no library requested. -/
theorem unknown_mode_behavior_witness :
    (cfgBogus.mode ≠ "scalar" ∧ cfgBogus.mode ≠ "vector" ∧ cfgBogus.mode ≠ "struct") ∧
      ((dispatch progName cfgBogus env0).err = "Unknown mode '" ++ cfgBogus.mode ++ "'\n"
      ∧ (dispatch progName cfgBogus env0).out = print_usage progName
      ∧ (dispatch progName cfgBogus env0).exitCode = 1
      ∧ (dispatch progName cfgBogus env0).events.filter eventIsCall = []) :=
  ⟨by decide,
    unknown_mode_behavior progName cfgBogus env0 (by decide) (by decide) (by decide)
      (by decide)⟩

/-- The event trace of the dispatch code, in closed form. -/
theorem dispatch_events (prog : String) (cfg : Config) (env : LibEnv) :
    (dispatch prog cfg env).events =
      if cfg.useLib && !env.opens then []
      else
        (if cfg.useLib then [Event.dlopenOk] else []) ++
        (if cfg.mode = "scalar" then [Event.callScalars cfg.a cfg.b cfg.c]
         else if cfg.mode = "vector" then [Event.callVectors exampleV1 exampleV2 exampleV3 3]
         else if cfg.mode = "struct" then [Event.callStructs exampleS1 exampleS2]
         else []) ++
        (if cfg.useLib then [Event.dlclose] else []) := by
  unfold dispatch
  split_ifs <;> simp

/-- C8: on every control path of `main`, the number of `dlclose` calls in
the trace equals 1 if a library handle was acquired and 0 otherwise: an
acquired handle is released exactly once before the process exits, and no
path exits holding an open handle. -/
theorem handle_released_on_every_path (prog : String) (args : List String) (env : LibEnv) :
    (mainC prog args env).events.countP isDlclose =
      (if Event.dlopenOk ∈ (mainC prog args env).events then 1 else 0) := by
  unfold mainC
  cases hp : parseLoop defaultConfig args with
  | help => simp
  | err => simp
  | ok cfg =>
    rw [dispatch_events]
    split_ifs <;> simp_all [isDlclose]

/-- Processing `xs ++ ys` first processes `xs` exactly as alone: if `xs`
parses to completion with configuration `cfg'` and does not contain the
option terminator `--` (at which `getopt` stops scanning options), the pass
continues through `ys` from `cfg'`. -/
theorem parseLoop_ok_append (n : ℕ) :
    ∀ (xs : List String), xs.length ≤ n → ∀ (cfg cfg' : Config) (ys : List String),
      "--" ∉ xs → parseLoop cfg xs = .ok cfg' →
      parseLoop cfg (xs ++ ys) = parseLoop cfg' ys := by
  induction n with
  | zero =>
    intro xs hlen cfg cfg' ys hnd h
    cases xs with
    | nil =>
      simp only [parseLoop, ParseResult.ok.injEq] at h
      subst h
      rfl
    | cons t rest => simp at hlen
  | succ n ih =>
    intro xs hlen cfg cfg' ys hnd h
    cases xs with
    | nil =>
      simp only [parseLoop, ParseResult.ok.injEq] at h
      subst h
      rfl
    | cons t rest =>
      have hnd' : "--" ∉ rest := fun hm => hnd (List.mem_cons_of_mem t hm)
      have hndt : t ≠ "--" := fun ht => hnd (ht ▸ List.mem_cons_self t rest)
      have hlen' : rest.length ≤ n := by
        simp only [List.length_cons] at hlen
        omega
      rw [List.cons_append]
      generalize hR : parseLoop cfg' ys = R
      unfold parseLoop at h ⊢
      split_ifs at h ⊢ with h1 h2 h3 h4 h5 h6
      · match rest with
        | [] => exact absurd h (by simp)
        | v :: rest' =>
          rw [List.cons_append]
          exact hR ▸ ih rest' (by simp only [List.length_cons] at hlen'; omega)
            _ cfg' ys (fun hm => hnd' (List.mem_cons_of_mem v hm)) h
      · exact hR ▸ ih rest hlen' _ cfg' ys hnd' h
      · match rest with
        | [] => exact absurd h (by simp)
        | v :: rest' =>
          rw [List.cons_append]
          exact hR ▸ ih rest' (by simp only [List.length_cons] at hlen'; omega)
            _ cfg' ys (fun hm => hnd' (List.mem_cons_of_mem v hm)) h
      · match rest with
        | [] => exact absurd h (by simp)
        | v :: rest' =>
          rw [List.cons_append]
          exact hR ▸ ih rest' (by simp only [List.length_cons] at hlen'; omega)
            _ cfg' ys (fun hm => hnd' (List.mem_cons_of_mem v hm)) h
      · match rest with
        | [] => exact absurd h (by simp)
        | v :: rest' =>
          rw [List.cons_append]
          exact hR ▸ ih rest' (by simp only [List.length_cons] at hlen'; omega)
            _ cfg' ys (fun hm => hnd' (List.mem_cons_of_mem v hm)) h
      · exact hR ▸ ih rest hlen' _ cfg' ys hnd' h

/-- C9: when an option among `--mode`, `--a`, `--b`, `--c` is given more
than once, the later occurrence overwrites the earlier one during the single
left-to-right option pass: appending a final occurrence to any argument list
that parses to completion (and contains no `--` terminator, at which option
scanning stops) yields exactly the prefix configuration with that one field
overwritten, so only the final value reaches the dispatcher. -/
theorem last_option_wins (n : OptName) (xs : List String) (v : String)
    (cfg cfg' : Config) (hnd : "--" ∉ xs) (h : parseLoop cfg xs = .ok cfg') :
    parseLoop cfg (xs ++ [optFlag n, v]) = .ok (setOpt n v cfg') := by
  rw [parseLoop_ok_append xs.length xs (le_refl _) cfg cfg' [optFlag n, v] hnd h]
  cases n <;> rfl

/-- Witness for C9: `--a 1 --a 2.5` ends with `a = strtof "2.5"`. -/
theorem last_option_wins_witness :
    ("--" ∉ (["--a", "1"] : List String)
      ∧ parseLoop defaultConfig ["--a", "1"] = .ok cfgMid) ∧
      parseLoop defaultConfig (["--a", "1"] ++ [optFlag .a, "2.5"]) =
        .ok (setOpt .a "2.5" cfgMid) :=
  ⟨⟨by decide, by decide⟩,
    last_option_wins .a ["--a", "1"] "2.5" defaultConfig cfgMid (by decide) (by decide)⟩

/-- C10: in vector mode and in struct mode without `--use-lib`, the whole
observable outcome — stdout, stderr, exit status, and the event trace — is
independent of the `--a`, `--b`, `--c` arguments: two invocations differing
only in those values are observationally identical. -/
theorem mode_independent_of_abc (prog : String) (env : LibEnv)
    (m sa sb sc sa' sb' sc' : String) (hm : m = "vector" ∨ m = "struct") :
    mainC prog ["--mode", m, "--a", sa, "--b", sb, "--c", sc] env =
      mainC prog ["--mode", m, "--a", sa', "--b", sb', "--c", sc'] env := by
  rcases hm with h | h <;> subst h <;> rfl

/-- Witness for C10 in vector mode with two unrelated value triples. -/
theorem mode_independent_of_abc_witness :
    (("vector" : String) = "vector" ∨ ("vector" : String) = "struct") ∧
      mainC progName ["--mode", "vector", "--a", "1", "--b", "2", "--c", "3"] env0 =
        mainC progName ["--mode", "vector", "--a", "9.5", "--b", "-8", "--c", "7e2"] env0 :=
  ⟨Or.inl rfl,
    mode_independent_of_abc progName env0 "vector" "1" "2" "3" "9.5" "-8" "7e2" (Or.inl rfl)⟩
